import Mathlib

/-!
# KubeFoundry deployment-planning core: shallow embedding and verification

This file embeds, in Lean 4, the deployment-planning core of the
KubeFoundry repository and proves properties of it:

* the cost service (`calculateResourceBreakdown`, `getHourlyRate`,
  `calculateCostEstimate` from the backend costs service),
* the Dynamo manifest synthesizer (`generateDynamoManifest`,
  `validateManifest` from the backend dynamo service),
* the installation routes (install / upgrade / uninstall of a provider's
  Helm chart set, from the backend Hono route layer), and
* the deployment-creation route with its advisory GPU-fit check.

JavaScript `number` fields are modelled as `ℚ` (the services only ever
add, multiply and divide them); optional fields are `Option`; the
JavaScript `??` operator becomes `Option.getD`.  Display-only strings
built with float `toFixed` formatting (`relativeDescription`) are not
modelled; no claim concerns them.
-/

namespace KubeFoundry

/-! ## Shared cost types (shared/types/costs.ts) -/

/-- `type CloudProvider = 'aws' | 'azure' | 'gcp' | 'on-prem' | 'none'`. -/
inductive CloudProvider where
  | aws
  | azure
  | gcp
  | onPrem
  | none
  deriving DecidableEq, Repr

/-- `type GpuType` of shared/types/costs.ts: ten pricing identifiers. -/
inductive GpuType where
  | a100_40gb
  | a100_80gb
  | h100
  | h200
  | l40s
  | l4
  | t4
  | v100
  | a10g
  | unknown
  deriving DecidableEq, Repr

/-- `interface CostEstimateInput` of shared/types/costs.ts. -/
structure CostEstimateInput where
  mode : String                -- 'aggregated' | 'disaggregated'
  replicas : ℚ
  gpusPerReplica : ℚ
  prefillReplicas : Option ℚ := Option.none
  decodeReplicas : Option ℚ := Option.none
  prefillGpus : Option ℚ := Option.none
  decodeGpus : Option ℚ := Option.none
  cloudProvider : Option CloudProvider := Option.none
  gpuType : Option GpuType := Option.none
  customHourlyRate : Option ℚ := Option.none
  deriving DecidableEq, Repr

/-- `interface ResourceBreakdown` of shared/types/costs.ts. -/
structure ResourceBreakdown where
  workerInstances : Option ℚ := Option.none
  gpusPerWorker : Option ℚ := Option.none
  prefillInstances : Option ℚ := Option.none
  prefillGpusPerInstance : Option ℚ := Option.none
  decodeInstances : Option ℚ := Option.none
  decodeGpusPerInstance : Option ℚ := Option.none
  totalGpus : ℚ
  totalInstances : ℚ
  deriving DecidableEq, Repr

/-- `interface CostSettings` of shared/types/costs.ts. -/
structure CostSettings where
  cloudProvider : CloudProvider
  gpuType : GpuType
  customHourlyRate : Option ℚ := Option.none
  deriving DecidableEq, Repr

/-- `interface CostEstimate` of shared/types/costs.ts (minus the
display-only `relativeDescription` string, which is float formatting). -/
structure CostEstimate where
  resources : ResourceBreakdown
  hasActualCosts : Bool
  hourlyRate : Option ℚ
  dailyRate : Option ℚ
  monthlyRate : Option ℚ
  gpuType : Option GpuType
  cloudProvider : Option CloudProvider
  gpuMultiplier : ℚ
  baselineGpus : ℚ
  additionalGpus : ℚ
  percentageIncrease : ℚ
  deriving DecidableEq, Repr

/-! ## Cost service (backend costs service) -/

/-- `GPU_PRICING`: hourly USD rate table by cloud provider and GPU type. -/
def GPU_PRICING : CloudProvider → GpuType → ℚ
  | .aws, .a100_40gb => 3.40
  | .aws, .a100_80gb => 4.10
  | .aws, .h100 => 5.10
  | .aws, .h200 => 6.50
  | .aws, .l40s => 1.80
  | .aws, .l4 => 0.80
  | .aws, .t4 => 0.53
  | .aws, .v100 => 1.26
  | .aws, .a10g => 1.21
  | .aws, .unknown => 2.50
  | .azure, .a100_40gb => 3.40
  | .azure, .a100_80gb => 3.67
  | .azure, .h100 => 5.00
  | .azure, .h200 => 6.20
  | .azure, .l40s => 1.70
  | .azure, .l4 => 0.75
  | .azure, .t4 => 0.52
  | .azure, .v100 => 1.22
  | .azure, .a10g => 1.10
  | .azure, .unknown => 2.40
  | .gcp, .a100_40gb => 3.17
  | .gcp, .a100_80gb => 3.67
  | .gcp, .h100 => 5.07
  | .gcp, .h200 => 6.30
  | .gcp, .l40s => 1.65
  | .gcp, .l4 => 0.70
  | .gcp, .t4 => 0.35
  | .gcp, .v100 => 1.10
  | .gcp, .a10g => 1.00
  | .gcp, .unknown => 2.30
  | .onPrem, _ => 0
  | .none, _ => 0

/-- `calculateResourceBreakdown(input)`: in disaggregated mode the
prefill/decode replica counts default (`??`) to 1 and the prefill/decode
GPU counts default to `gpusPerReplica`; aggregated mode multiplies
replicas by GPUs per replica. -/
def calculateResourceBreakdown (input : CostEstimateInput) : ResourceBreakdown :=
  if input.mode = "disaggregated" then
    let prefillInstances := input.prefillReplicas.getD 1
    let decodeInstances := input.decodeReplicas.getD 1
    let prefillGpusPerInstance := input.prefillGpus.getD input.gpusPerReplica
    let decodeGpusPerInstance := input.decodeGpus.getD input.gpusPerReplica
    let totalGpus := prefillInstances * prefillGpusPerInstance +
                     decodeInstances * decodeGpusPerInstance
    { prefillInstances := some prefillInstances
      prefillGpusPerInstance := some prefillGpusPerInstance
      decodeInstances := some decodeInstances
      decodeGpusPerInstance := some decodeGpusPerInstance
      totalGpus := totalGpus
      totalInstances := prefillInstances + decodeInstances }
  else
    let workerInstances := input.replicas
    let gpusPerWorker := input.gpusPerReplica
    { workerInstances := some workerInstances
      gpusPerWorker := some gpusPerWorker
      totalGpus := workerInstances * gpusPerWorker
      totalInstances := workerInstances }

/-- `getHourlyRate(cloudProvider, gpuType, customHourlyRate)`: custom rate
for on-prem when supplied; `undefined` for missing/'none' provider;
otherwise a table lookup defaulting the GPU type to 'unknown', treating a
non-positive table entry as "no pricing". -/
def getHourlyRate (cloudProvider : Option CloudProvider) (gpuType : Option GpuType)
    (customHourlyRate : Option ℚ) : Option ℚ :=
  if cloudProvider = some .onPrem ∧ customHourlyRate.isSome then
    customHourlyRate
  else if cloudProvider = Option.none ∨ cloudProvider = some .none then
    Option.none
  else
    match cloudProvider with
    | Option.none => Option.none
    | some p =>
      let rate := GPU_PRICING p (gpuType.getD .unknown)
      if 0 < rate then some rate else Option.none

/-- `input.cloudProvider ?? costSettings?.cloudProvider ?? 'none'`. -/
def resolvedCloudProvider (input : CostEstimateInput)
    (costSettings : Option CostSettings) : CloudProvider :=
  input.cloudProvider.getD ((costSettings.map (·.cloudProvider)).getD .none)

/-- `input.gpuType ?? costSettings?.gpuType ?? 'unknown'`. -/
def resolvedGpuType (input : CostEstimateInput)
    (costSettings : Option CostSettings) : GpuType :=
  input.gpuType.getD ((costSettings.map (·.gpuType)).getD .unknown)

/-- `input.customHourlyRate ?? costSettings?.customHourlyRate`. -/
def resolvedCustomRate (input : CostEstimateInput)
    (costSettings : Option CostSettings) : Option ℚ :=
  match input.customHourlyRate with
  | some r => some r
  | Option.none => (costSettings.map (·.customHourlyRate)).getD Option.none

/-- `calculateCostEstimate(input, costSettings)`: resolves the cloud
provider, GPU type and custom rate from the input with the settings as
fallback; derives the baseline/relative metrics; and attaches
hourly/daily/monthly rates only when a positive per-GPU rate is known. -/
def calculateCostEstimate (input : CostEstimateInput)
    (costSettings : Option CostSettings := Option.none) : CostEstimate :=
  let resources := calculateResourceBreakdown input
  let cloudProvider := resolvedCloudProvider input costSettings
  let gpuType := resolvedGpuType input costSettings
  let customHourlyRate := resolvedCustomRate input costSettings
  let baselineGpus := input.gpusPerReplica
  let additionalGpus := resources.totalGpus - baselineGpus
  let percentageIncrease :=
    if 0 < baselineGpus then (resources.totalGpus - baselineGpus) / baselineGpus * 100 else 0
  let gpuMultiplier :=
    if 0 < baselineGpus then resources.totalGpus / baselineGpus else 1
  let perGpuHourlyRate := getHourlyRate (some cloudProvider) (some gpuType) customHourlyRate
  let hasActualCosts := perGpuHourlyRate.isSome ∧
    0 < perGpuHourlyRate.getD 0
  let rates : Option ℚ × Option ℚ × Option ℚ :=
    match perGpuHourlyRate with
    | some r =>
      if hasActualCosts ∧ r ≠ 0 then
        let hourly := resources.totalGpus * r
        (some hourly, some (hourly * 24), some (hourly * 730))
      else (Option.none, Option.none, Option.none)
    | Option.none => (Option.none, Option.none, Option.none)
  { resources := resources
    hasActualCosts := decide hasActualCosts
    hourlyRate := rates.1
    dailyRate := rates.2.1
    monthlyRate := rates.2.2
    gpuType := if hasActualCosts then some gpuType else Option.none
    cloudProvider := if hasActualCosts then some cloudProvider else Option.none
    gpuMultiplier := gpuMultiplier
    baselineGpus := baselineGpus
    additionalGpus := additionalGpus
    percentageIncrease := percentageIncrease }

/-! ## Dynamo manifest synthesizer (backend dynamo service) -/

/-- `engine: 'vllm' | 'sglang' | 'trtllm'`. -/
inductive Engine where
  | vllm
  | sglang
  | trtllm
  deriving DecidableEq, Repr

/-- `routerMode: 'none' | 'kv' | 'round-robin'`. -/
inductive RouterMode where
  | none
  | kv
  | roundRobin
  deriving DecidableEq, Repr

/-- The string value of an engine choice as it appears in the config. -/
def Engine.str : Engine → String
  | .vllm => "vllm"
  | .sglang => "sglang"
  | .trtllm => "trtllm"

/-- The string value of a router mode as it appears in the config. -/
def RouterMode.str : RouterMode → String
  | .none => "none"
  | .kv => "kv"
  | .roundRobin => "round-robin"

/-- A free-form engine argument value (`Record<string, unknown>` entry):
the code only distinguishes booleans from everything else, and renders a
non-boolean value by string interpolation, so a non-boolean value is
carried as its rendered string. -/
inductive EngineArgValue where
  | boolV (b : Bool)
  | otherV (rendered : String)
  deriving DecidableEq, Repr

/-- `interface DeploymentConfig` of the dynamo service.  `contextLength`
and the GPU count are integer-valued in practice and modelled as `ℕ` so
that string interpolation matches JavaScript's rendering. -/
structure DeploymentConfig where
  name : String
  namespace' : String
  modelId : String
  engine : Engine
  mode : String
  servedModelName : Option String := Option.none
  routerMode : RouterMode
  replicas : ℚ
  hfTokenSecret : String
  contextLength : Option ℕ := Option.none
  enforceEager : Bool := false
  enablePrefixCaching : Bool := false
  trustRemoteCode : Bool := false
  resources : Option (ℕ × Option String) := Option.none
  engineArgs : Option (List (String × EngineArgValue)) := Option.none
  deriving DecidableEq, Repr

/-- The `resources.{limits,requests}` object of a worker spec: GPU count
stringified, memory spread in only when present. -/
structure ResourceSpec where
  gpu : String
  memory : Option String := Option.none
  deriving DecidableEq, Repr

/-- The `extraPodSpec.mainContainer` object of a worker spec. -/
structure MainContainer where
  workingDir : String
  command : List String
  args : List String
  deriving DecidableEq, Repr

/-- One entry of the manifest's `spec.services` map. -/
structure ServiceSpec where
  componentType : String
  dynamoNamespace : String
  replicas : ℚ
  routerMode : Option String := Option.none
  envFromSecret : Option String := Option.none
  resources : Option (ResourceSpec × ResourceSpec) := Option.none
  extraPodSpec : Option MainContainer := Option.none
  deriving DecidableEq, Repr

/-- `metadata` of a `DynamoManifest`. -/
structure ManifestMetadata where
  name : String
  namespace' : String
  labels : List (String × String) := []
  deriving DecidableEq, Repr

/-- `spec` of a `DynamoManifest`: the `services` map is an association
list in insertion order. -/
structure ManifestSpec where
  backendFramework : String
  services : Option (List (String × ServiceSpec))
  deriving DecidableEq, Repr

/-- `interface DynamoManifest` of the dynamo service. -/
structure DynamoManifest where
  apiVersion : String
  kind : String
  metadata : ManifestMetadata
  spec : Option ManifestSpec
  deriving DecidableEq, Repr

/-- Serialization of the free-form `engineArgs` entries, as the source
does it: boolean `true` emits the bare flag, any other boolean (i.e.
`false`) emits nothing, and every non-boolean emits `--key value`. -/
def engineArgTokens : List (String × EngineArgValue) → List String
  | [] => []
  | (key, .boolV true) :: rest => ("--" ++ key) :: engineArgTokens rest
  | (_, .boolV false) :: rest => engineArgTokens rest
  | (key, .otherV v) :: rest => ("--" ++ key ++ " " ++ v) :: engineArgTokens rest

/-- The `args` list built by `generateWorkerSpec`, token by token in the
source's push order; `if (x)` truthiness tests on optional strings and
numbers are preserved (`""` and `0` do not emit). -/
def buildWorkerArgs (config : DeploymentConfig) : List String :=
  ["python3 -m dynamo." ++ config.engine.str,
   "--model " ++ config.modelId] ++
  (match config.servedModelName with
   | some s => if s ≠ "" then ["--served-model-name " ++ s] else []
   | Option.none => []) ++
  (if config.enforceEager then ["--enforce-eager"] else []) ++
  (if config.enablePrefixCaching then ["--enable-prefix-caching"] else []) ++
  (if config.trustRemoteCode then ["--trust-remote-code"] else []) ++
  (match config.contextLength with
   | some n => if n ≠ 0 then ["--max-model-len " ++ toString n] else []
   | Option.none => []) ++
  engineArgTokens (config.engineArgs.getD [])

/-- The services-map key of the worker entry for each engine. -/
def workerKeyOf : Engine → String
  | .vllm => "VllmWorker"
  | .sglang => "SglangWorker"
  | .trtllm => "TrtllmWorker"

/-- `generateFrontendSpec(config)`. -/
def generateFrontendSpec (config : DeploymentConfig) : ServiceSpec :=
  { componentType := "frontend"
    dynamoNamespace := config.name
    replicas := 1
    routerMode :=
      if config.routerMode ≠ .none then some config.routerMode.str else Option.none
    envFromSecret :=
      if config.hfTokenSecret ≠ "" then some config.hfTokenSecret else Option.none }

/-- `generateWorkerSpec(config)`: the worker `ServiceSpec` together with
its services-map key, chosen by the engine. -/
def generateWorkerSpec (config : DeploymentConfig) : String × ServiceSpec :=
  (workerKeyOf config.engine,
   { componentType := "worker"
     dynamoNamespace := config.name
     replicas := config.replicas
     envFromSecret :=
       if config.hfTokenSecret ≠ "" then some config.hfTokenSecret else Option.none
     resources := config.resources.map (fun r =>
       ({ gpu := toString r.1, memory := r.2 }, { gpu := toString r.1, memory := r.2 }))
     extraPodSpec := some
       { workingDir := "/workspace/examples/backends/" ++ config.engine.str
         command := ["/bin/sh", "-c"]
         args := [" ".intercalate (buildWorkerArgs config)] } })

/-- `generateDynamoManifest(config)`. -/
def generateDynamoManifest (config : DeploymentConfig) : DynamoManifest :=
  let workerSpec := generateWorkerSpec config
  let frontendSpec := generateFrontendSpec config
  { apiVersion := "nvidia.com/v1alpha1"
    kind := "DynamoGraphDeployment"
    metadata :=
      { name := config.name
        namespace' := config.namespace'
        labels :=
          [("app.kubernetes.io/name", "kubefoundry"),
           ("app.kubernetes.io/instance", config.name),
           ("app.kubernetes.io/managed-by", "kubefoundry"),
           ("kubefoundry.io/provider", "dynamo")] }
    spec := some
      { backendFramework := config.engine.str
        services := some [("Frontend", frontendSpec), workerSpec] } }

/-- The `{ valid, errors }` result of `validateManifest`. -/
structure ValidationOutcome where
  valid : Bool
  errors : List String
  deriving DecidableEq, Repr

/-- `validateManifest(manifest)`: accumulates every structural violation
in source order; `valid` is `errors.length === 0`. -/
def validateManifest (m : DynamoManifest) : ValidationOutcome :=
  let services := m.spec.bind (·.services)
  let errors :=
    (if m.apiVersion = "" ∨ m.apiVersion ≠ "nvidia.com/v1alpha1" then
      ["Invalid or missing apiVersion"] else []) ++
    (if m.kind = "" ∨ m.kind ≠ "DynamoGraphDeployment" then
      ["Invalid or missing kind"] else []) ++
    (if m.metadata.name = "" then ["Missing metadata.name"] else []) ++
    (if m.metadata.namespace' = "" then ["Missing metadata.namespace"] else []) ++
    (if m.spec.isNone then ["Missing spec"] else []) ++
    (match services with
     | Option.none => ["Missing spec.services"]
     | some svcs =>
       (if (svcs.lookup "Frontend").isNone then
         ["Missing Frontend in spec.services"] else []) ++
       (if (svcs.lookup "VllmWorker").isNone ∧ (svcs.lookup "SglangWorker").isNone ∧
           (svcs.lookup "TrtllmWorker").isNone then
         ["Missing worker spec (VllmWorker, SglangWorker, or TrtllmWorker) in spec.services"]
        else []))
  { valid := errors.isEmpty, errors := errors }

/-- The keys of a manifest's `spec.services` map, in insertion order. -/
def serviceKeys (m : DynamoManifest) : List String :=
  ((m.spec.bind (·.services)).getD []).map Prod.fst

/-! ## Installation orchestrator and route layer (backend hono-app) -/

/-- `interface HelmRepo` of shared/types/settings. -/
structure HelmRepo where
  name : String
  url : String
  deriving DecidableEq, Repr

/-- `interface HelmChart` of shared/types/settings. -/
structure HelmChart where
  name : String
  chart : String
  version : Option String := Option.none
  namespace' : String
  createNamespace : Bool := false
  deriving DecidableEq, Repr

/-- A provisioning operation issued to the package-manager CLI. -/
inductive HelmOp where
  | repoAdd (repo : HelmRepo)
  | repoUpdate
  | chartInstall (chart : HelmChart)
  | chartUpgrade (chart : HelmChart)
  | chartUninstall (name ns : String)
  deriving DecidableEq, Repr

/-- The captured outcome of one CLI invocation. -/
structure CmdResult where
  success : Bool
  stdout : String := ""
  stderr : String := ""
  deriving DecidableEq, Repr

/-- The CLI environment of one run: what each operation returns. -/
def HelmEnv : Type := HelmOp → CmdResult

/-- One `{step, success, stdout, stderr}` entry of an installation run. -/
structure StepResult where
  step : String
  success : Bool
  stdout : String
  stderr : String
  deriving DecidableEq, Repr

/-- The `{success, results}` value the Helm service's `installProvider`
resolves with. -/
structure InstallOutcome where
  success : Bool
  results : List StepResult
  deriving DecidableEq, Repr

/-- The human-readable step label of a provisioning operation. -/
def stepLabel : HelmOp → String
  | .repoAdd repo => "repo-add " ++ repo.name
  | .repoUpdate => "repo-update"
  | .chartInstall chart => "install " ++ chart.name
  | .chartUpgrade chart => "upgrade " ++ chart.name
  | .chartUninstall name _ => "uninstall " ++ name

/-- Modelled from the spec: the step runner inside the Helm service's
`installProvider` (the helm service module is not among the provided
sources; only its call sites and result types are).  Runs the given
steps in order, recording a `{step, success, stdout, stderr}` entry per
executed step, and stops issuing steps after the first failure; also
returns the list of operations actually issued. -/
def runSteps (env : HelmEnv) : List HelmOp → List StepResult × List HelmOp
  | [] => ([], [])
  | op :: rest =>
    let r := env op
    if r.success then
      let (results, ops) := runSteps env rest
      ({ step := stepLabel op, success := true, stdout := r.stdout, stderr := r.stderr }
         :: results,
       op :: ops)
    else
      ([{ step := stepLabel op, success := false, stdout := r.stdout, stderr := r.stderr }],
       [op])

/-- The provisioning step sequence of an installation:
repo-add for each repo, then repo-update, then one install per chart. -/
def installSteps (repos : List HelmRepo) (charts : List HelmChart) : List HelmOp :=
  repos.map .repoAdd ++ [.repoUpdate] ++ charts.map .chartInstall

/-- Modelled from the spec: `helmService.installProvider(repos, charts,
onLine)`: drives repo-add ×N → repo-update → chart-install ×N, halting
at the first failing step, and resolves (never rejects) with the overall
success flag and the ordered per-step results collected so far. -/
def installProvider (env : HelmEnv) (repos : List HelmRepo) (charts : List HelmChart) :
    InstallOutcome × List HelmOp :=
  let (results, ops) := runSteps env (installSteps repos charts)
  ({ success := results.all (·.success), results := results }, ops)

/-- An HTTP error thrown by a route (`HTTPException`). -/
structure HTTPError where
  status : ℕ
  message : String
  deriving DecidableEq, Repr

/-- The per-step view the install route maps each step result into. -/
structure StepView where
  step : String
  success : Bool
  output : String
  error : String
  deriving DecidableEq, Repr

/-- The per-chart outcome entry pushed by the upgrade and uninstall
routes (`error` is `result.stderr || undefined`). -/
structure ChartView where
  chart : String
  success : Bool
  output : String
  error : Option String
  deriving DecidableEq, Repr

/-- The JSON body of a successful install-route response. -/
structure InstallResponse where
  success : Bool
  message : String
  alreadyInstalled : Bool := false
  results : List StepView := []
  deriving DecidableEq, Repr

/-- The provider fields the installation routes consume. -/
structure Provider where
  id : String
  name : String
  helmRepos : List HelmRepo
  helmCharts : List HelmChart
  deriving DecidableEq, Repr

/-- The cluster/CLI facts an installation route observes. -/
structure RouteEnv where
  helmAvailable : Bool
  helmError : String := ""
  installedBefore : Bool := false
  cli : HelmEnv

/-- `POST /providers/:id/install`: 400 when Helm is unavailable;
short-circuit with `alreadyInstalled: true` when the cluster already
reports the provider installed; otherwise run `installProvider` and
either return its results or throw a 500 naming the failing step and its
stderr.  The second component is the list of CLI provisioning operations
issued. -/
def installRoute (env : RouteEnv) (p : Provider) :
    Except HTTPError InstallResponse × List HelmOp :=
  if ¬ env.helmAvailable then
    (.error ⟨400, "Helm CLI not available: " ++ env.helmError ++
      ". Please install Helm or use the manual installation commands."⟩, [])
  else if env.installedBefore then
    (.ok { success := true, message := p.name ++ " is already installed",
           alreadyInstalled := true }, [])
  else
    let (outcome, ops) := installProvider env.cli p.helmRepos p.helmCharts
    if outcome.success then
      (.ok { success := true, message := p.name ++ " installed successfully",
             results := outcome.results.map (fun r =>
               { step := r.step, success := r.success, output := r.stdout,
                 error := r.stderr }) }, ops)
    else
      let failed := outcome.results.find? (fun r => ¬ r.success)
      (.error ⟨500, "Installation failed at step \"" ++
        (failed.map (·.step)).getD "undefined" ++ "\": " ++
        (failed.map (·.stderr)).getD "undefined"⟩, ops)

/-- The chart loop of `POST /providers/:id/upgrade`: upgrades each chart
in declared order, pushing a per-chart entry, and throws a 500 carrying
the failing chart's stderr as soon as one upgrade fails (the entries
pushed so far are discarded by the throw). -/
def upgradeCharts (env : HelmEnv) : List HelmChart →
    Except HTTPError (List ChartView) × List HelmOp
  | [] => (.ok [], [])
  | chart :: rest =>
    let r := env (.chartUpgrade chart)
    if r.success then
      let entry : ChartView :=
        { chart := chart.name, success := r.success, output := r.stdout,
          error := if r.stderr ≠ "" then some r.stderr else Option.none }
      let (out, ops) := upgradeCharts env rest
      (out.map (entry :: ·), .chartUpgrade chart :: ops)
    else
      (.error ⟨500, "Upgrade failed for chart \"" ++ chart.name ++ "\": " ++ r.stderr⟩,
       [.chartUpgrade chart])

/-- `POST /providers/:id/upgrade`: 400 when Helm is unavailable;
otherwise repo-add every repo, repo-update, then the chart loop. -/
def upgradeRoute (env : RouteEnv) (p : Provider) :
    Except HTTPError (List ChartView) × List HelmOp :=
  if ¬ env.helmAvailable then
    (.error ⟨400, "Helm CLI not available: " ++ env.helmError ++
      ". Please install Helm or use the manual upgrade commands."⟩, [])
  else
    let (out, ops) := upgradeCharts env.cli p.helmCharts
    (out, p.helmRepos.map .repoAdd ++ [.repoUpdate] ++ ops)

/-- `POST /providers/:id/uninstall`: 400 when Helm is unavailable;
otherwise uninstall the provider's charts in reverse declared order,
pushing one entry per chart whatever each result is. -/
def uninstallRoute (env : RouteEnv) (p : Provider) :
    Except HTTPError (List ChartView) × List HelmOp :=
  if ¬ env.helmAvailable then
    (.error ⟨400, "Helm CLI not available: " ++ env.helmError⟩, [])
  else
    let rev := p.helmCharts.reverse
    (.ok (rev.map (fun chart =>
       let r := env.cli (.chartUninstall chart.name chart.namespace')
       { chart := chart.name, success := r.success, output := r.stdout,
         error := if r.stderr ≠ "" then some r.stderr else Option.none })),
     rev.map (fun chart => .chartUninstall chart.name chart.namespace'))

/-! ## Deployment creation route (backend hono-app) -/

/-- `interface ClusterGpuCapacity` of shared/types/installation.ts
(per-node breakdown omitted; the route reads only the totals). -/
structure ClusterGpuCapacity where
  totalGpus : ℕ
  allocatedGpus : ℕ
  availableGpus : ℕ
  maxContiguousAvailable : ℕ
  deriving DecidableEq, Repr

/-- The `{fits, warnings}` result of the GPU fit validator (the
gpuValidation module's result shape, per the spec's
`validateFit(topology, capacity, modelMinGpus) -> {fits, warnings}`). -/
structure GpuFitResult where
  fits : Bool
  warnings : List String
  deriving DecidableEq, Repr

/-- The 201 JSON body of `POST /deployments` (`warnings` spread in only
when non-empty; the empty list stands for the absent field). -/
structure DeployResponse where
  message : String
  name : String
  namespace' : String
  warnings : List String := []
  deriving DecidableEq, Repr

/-- `POST /deployments`: validates the body against the active provider's
config validator (400 on failure); then, inside a try/catch, queries
cluster GPU capacity and runs the advisory fit check — a failing
capacity query is caught and logged, never rethrown; finally always
creates the deployment and answers 201, with fit warnings attached as
strings only.  Parametric in the fit checker and warning formatter (the
gpuValidation module); `capacity` is the outcome of the cluster query
(`Except.error` = cluster unreachable).  The second component records
whether `createDeployment` was issued. -/
def createDeploymentRoute
    (validation : Except (List String) DeploymentConfig)
    (capacity : Except String ClusterGpuCapacity)
    (modelMinGpus : ℕ)
    (validateGpuFit : DeploymentConfig → ClusterGpuCapacity → ℕ → GpuFitResult)
    (formatGpuWarnings : GpuFitResult → List String) :
    Except HTTPError DeployResponse × Bool :=
  match validation with
  | .error errs =>
    (.error ⟨400, "Validation error: " ++ ", ".intercalate errs⟩, false)
  | .ok config =>
    let gpuWarnings :=
      match capacity with
      | .error _ => []
      | .ok cap =>
        let fit := validateGpuFit config cap modelMinGpus
        if ¬ fit.fits then formatGpuWarnings fit else []
    (.ok { message := "Deployment created successfully", name := config.name,
           namespace' := config.namespace', warnings := gpuWarnings }, true)

/-! ## Specification-side definitions for the argument-assembly claim

`specWorkerArgString` renders the claim's fixed-order command line as the
spec describes it, with the boolean-`false` rule amended to match the
source (a boolean `false` entry emits nothing); `claimedWorkerArgString`
renders the claim exactly as stated (every non-`true` value emits
`--key value`).  Both are compared against the argument string extracted
from the synthesized manifest. -/

/-- An optional token: present exactly when its condition holds. -/
def optToken (present : Bool) (tok : String) : Option String :=
  if present then some tok else Option.none

/-- Free-form engine-argument serialization as the spec's amended rule
reads: boolean `true` emits the bare flag, boolean `false` emits
nothing, every non-boolean emits `--key value`. -/
def specEngineArgTokens (ls : List (String × EngineArgValue)) : List String :=
  (ls.map (fun kv =>
    match kv.2 with
    | .boolV true => ["--" ++ kv.1]
    | .boolV false => []
    | .otherV v => ["--" ++ kv.1 ++ " " ++ v])).flatten

/-- Free-form engine-argument serialization as claim C4 states it:
boolean `true` emits the bare flag and every other value — boolean
`false` included, which JavaScript renders as the string `false` — emits
`--key value`. -/
def claimedEngineArgTokens (ls : List (String × EngineArgValue)) : List String :=
  (ls.map (fun kv =>
    match kv.2 with
    | .boolV true => ["--" ++ kv.1]
    | .boolV false => ["--" ++ kv.1 ++ " false"]
    | .otherV v => ["--" ++ kv.1 ++ " " ++ v])).flatten

/-- The fixed-order prefix of the command line common to the claim as
stated and as amended: module invocation, `--model`, then the five
optional engine flags, each present exactly when its field is set to a
truthy value. -/
def specArgPrefix (config : DeploymentConfig) : List String :=
  ["python3 -m dynamo." ++ config.engine.str,
   "--model " ++ config.modelId] ++
  (optToken (config.servedModelName.getD "" ≠ "")
    ("--served-model-name " ++ config.servedModelName.getD "")).toList ++
  (optToken config.enforceEager "--enforce-eager").toList ++
  (optToken config.enablePrefixCaching "--enable-prefix-caching").toList ++
  (optToken config.trustRemoteCode "--trust-remote-code").toList ++
  (optToken (config.contextLength.getD 0 ≠ 0)
    ("--max-model-len " ++ toString (config.contextLength.getD 0))).toList

/-- The full command-line string per the amended claim. -/
def specWorkerArgString (config : DeploymentConfig) : String :=
  " ".intercalate (specArgPrefix config ++ specEngineArgTokens (config.engineArgs.getD []))

/-- The full command-line string per claim C4 exactly as stated. -/
def claimedWorkerArgString (config : DeploymentConfig) : String :=
  " ".intercalate (specArgPrefix config ++ claimedEngineArgTokens (config.engineArgs.getD []))

/-- The `extraPodSpec.mainContainer.args` of the worker entry of the
synthesized manifest, when present. -/
def workerArgStrings (config : DeploymentConfig) : Option (List String) :=
  ((((generateDynamoManifest config).spec.bind (·.services)).getD []).lookup
      (workerKeyOf config.engine)).bind (·.extraPodSpec) |>.map (·.args)

/-- The `{step, success, stdout, stderr}` entry an executed operation
contributes to an installation run. -/
def stepEntry (env : HelmEnv) (op : HelmOp) : StepResult :=
  { step := stepLabel op, success := (env op).success,
    stdout := (env op).stdout, stderr := (env op).stderr }

/-! ## Concrete inputs used by counterexamples and witnesses -/

/-- A deployment config whose free-form engine arguments carry a boolean
`false` entry. -/
def c4Config : DeploymentConfig :=
  { name := "demo", namespace' := "default", modelId := "Qwen/Qwen2-0.5B"
    engine := .vllm, mode := "aggregated", routerMode := .none
    replicas := 1, hfTokenSecret := "hf-token-secret"
    engineArgs := some [("enable-chunked-prefill", .boolV false)] }

/-- The Helm repository of the two-chart demo provider. -/
def nvidiaRepo : HelmRepo := { name := "nvidia", url := "https://helm.ngc.nvidia.com/nvidia" }

/-- The CRDs chart of the two-chart demo provider. -/
def crdsChart : HelmChart :=
  { name := "dynamo-crds", chart := "nvidia/dynamo-crds", namespace' := "dynamo-system" }

/-- The operator chart of the two-chart demo provider. -/
def operatorChart : HelmChart :=
  { name := "dynamo-operator", chart := "nvidia/dynamo-operator",
    namespace' := "dynamo-system" }

/-- A two-chart provider for exercising the installation flows. -/
def demoProvider : Provider :=
  { id := "dynamo", name := "NVIDIA Dynamo"
    helmRepos := [nvidiaRepo]
    helmCharts := [crdsChart, operatorChart] }

/-- A three-chart provider for exercising reverse-order uninstall. -/
def threeChartProvider : Provider :=
  { id := "demo", name := "Demo"
    helmRepos := []
    helmCharts :=
      [{ name := "chart-a", chart := "r/a", namespace' := "ns" },
       { name := "chart-b", chart := "r/b", namespace' := "ns" },
       { name := "chart-c", chart := "r/c", namespace' := "ns" }] }

/-- A CLI environment in which upgrading `dynamo-crds` fails with a
captured stderr and everything else succeeds. -/
def failingUpgradeCli : HelmEnv := fun op =>
  match op with
  | .chartUpgrade chart =>
    if chart.name = "dynamo-crds" then
      { success := false, stdout := "", stderr := "UPGRADE FAILED: boom" }
    else { success := true }
  | _ => { success := true }

/-- A CLI environment in which installing `dynamo-operator` fails and
everything else succeeds. -/
def failingInstallCli : HelmEnv := fun op =>
  match op with
  | .chartInstall chart =>
    if chart.name = "dynamo-operator" then
      { success := false, stdout := "", stderr := "INSTALL FAILED: timed out" }
    else { success := true }
  | _ => { success := true }

/-- A CLI environment in which every operation fails. -/
def allFailCli : HelmEnv := fun _ =>
  { success := false, stdout := "", stderr := "helm exploded" }

/-! ## Theorems -/

/-- C2: for every input in aggregated mode, `calculateResourceBreakdown`
returns `totalGpus = replicas × gpusPerReplica` and
`totalInstances = replicas`. -/
theorem aggregated_breakdown_totals (input : CostEstimateInput)
    (h : input.mode = "aggregated") :
    (calculateResourceBreakdown input).totalGpus = input.replicas * input.gpusPerReplica ∧
    (calculateResourceBreakdown input).totalInstances = input.replicas := by
  simp [calculateResourceBreakdown, h]

/-- Witness for C2: at `{mode: aggregated, replicas: 2, gpusPerReplica: 4}`,
the totals are `2 × 4` GPUs and `2` instances. -/
theorem aggregated_breakdown_totals_witness :
    (calculateResourceBreakdown
      { mode := "aggregated", replicas := 2, gpusPerReplica := 4 }).totalGpus = 2 * 4 ∧
    (calculateResourceBreakdown
      { mode := "aggregated", replicas := 2, gpusPerReplica := 4 }).totalInstances = 2 :=
  aggregated_breakdown_totals { mode := "aggregated", replicas := 2, gpusPerReplica := 4 } rfl

/-- C3: for every input in disaggregated mode, missing prefill/decode
replica counts default to 1 and missing prefill/decode GPU counts default
to `gpusPerReplica`, with `totalGpus` the sum of the two products and
`totalInstances` the sum of the instance counts. -/
theorem disaggregated_breakdown_defaults (input : CostEstimateInput)
    (h : input.mode = "disaggregated") :
    (calculateResourceBreakdown input).prefillInstances =
      some (input.prefillReplicas.getD 1) ∧
    (calculateResourceBreakdown input).decodeInstances =
      some (input.decodeReplicas.getD 1) ∧
    (calculateResourceBreakdown input).prefillGpusPerInstance =
      some (input.prefillGpus.getD input.gpusPerReplica) ∧
    (calculateResourceBreakdown input).decodeGpusPerInstance =
      some (input.decodeGpus.getD input.gpusPerReplica) ∧
    (calculateResourceBreakdown input).totalGpus =
      input.prefillReplicas.getD 1 * input.prefillGpus.getD input.gpusPerReplica +
      input.decodeReplicas.getD 1 * input.decodeGpus.getD input.gpusPerReplica ∧
    (calculateResourceBreakdown input).totalInstances =
      input.prefillReplicas.getD 1 + input.decodeReplicas.getD 1 := by
  simp [calculateResourceBreakdown, h]

/-- Witness for C3: with only `decodeGpus = 2` given, prefill defaults to
1 instance × 4 GPUs and decode to 1 instance × 2 GPUs. -/
theorem disaggregated_breakdown_defaults_witness :
    (calculateResourceBreakdown
      { mode := "disaggregated", replicas := 1, gpusPerReplica := 4,
        decodeGpus := some 2 }).prefillInstances = some 1 ∧
    (calculateResourceBreakdown
      { mode := "disaggregated", replicas := 1, gpusPerReplica := 4,
        decodeGpus := some 2 }).decodeInstances = some 1 ∧
    (calculateResourceBreakdown
      { mode := "disaggregated", replicas := 1, gpusPerReplica := 4,
        decodeGpus := some 2 }).prefillGpusPerInstance = some 4 ∧
    (calculateResourceBreakdown
      { mode := "disaggregated", replicas := 1, gpusPerReplica := 4,
        decodeGpus := some 2 }).decodeGpusPerInstance = some 2 ∧
    (calculateResourceBreakdown
      { mode := "disaggregated", replicas := 1, gpusPerReplica := 4,
        decodeGpus := some 2 }).totalGpus = 1 * 4 + 1 * 2 ∧
    (calculateResourceBreakdown
      { mode := "disaggregated", replicas := 1, gpusPerReplica := 4,
        decodeGpus := some 2 }).totalInstances = 1 + 1 := by
  have h := disaggregated_breakdown_defaults
    { mode := "disaggregated", replicas := 1, gpusPerReplica := 4, decodeGpus := some 2 } rfl
  simpa using h

/-- A resolved cloud provider of 'none' always yields no hourly rate. -/
theorem getHourlyRate_none (g : Option GpuType) (c : Option ℚ) :
    getHourlyRate (some CloudProvider.none) g c = Option.none := by
  simp [getHourlyRate]

/-- C5: `monthlyRate = hourlyRate × 730` whenever the hourly rate is
defined (stated as an `Option.map`, which also forces `monthlyRate` to be
absent when `hourlyRate` is); and with a resolved cloud provider of
'none' there are no actual costs and no hourly rate, while
`gpuMultiplier` is still `totalGpus / gpusPerReplica` (for a positive GPU
count). -/
theorem cost_estimate_monthly_and_none_provider (input : CostEstimateInput)
    (settings : Option CostSettings) :
    (calculateCostEstimate input settings).monthlyRate =
      (calculateCostEstimate input settings).hourlyRate.map (fun r => r * 730) ∧
    (resolvedCloudProvider input settings = CloudProvider.none →
      (calculateCostEstimate input settings).hasActualCosts = false ∧
      (calculateCostEstimate input settings).hourlyRate = Option.none ∧
      (0 < input.gpusPerReplica →
        (calculateCostEstimate input settings).gpuMultiplier =
          (calculateResourceBreakdown input).totalGpus / input.gpusPerReplica)) := by
  constructor
  · cases hgr : getHourlyRate (some (resolvedCloudProvider input settings))
        (some (resolvedGpuType input settings)) (resolvedCustomRate input settings) with
    | none => simp [calculateCostEstimate, hgr]
    | some q =>
      simp only [calculateCostEstimate, hgr]
      split
      · simp [mul_assoc]
      · simp
  · intro hnone
    refine ⟨?_, ?_, ?_⟩
    · simp [calculateCostEstimate, hnone, getHourlyRate_none]
    · simp [calculateCostEstimate, hnone, getHourlyRate_none]
    · intro hg
      simp [calculateCostEstimate, hg]

/-- Witness for C5: a 2×4-GPU aggregated request with provider 'none'
has `monthlyRate = hourlyRate.map (· × 730)`, no actual costs, no hourly
rate, and `gpuMultiplier = totalGpus / 4`. -/
theorem cost_estimate_monthly_and_none_provider_witness :
    (calculateCostEstimate
      { mode := "aggregated", replicas := 2, gpusPerReplica := 4,
        cloudProvider := some .none } Option.none).monthlyRate =
      (calculateCostEstimate
        { mode := "aggregated", replicas := 2, gpusPerReplica := 4,
          cloudProvider := some .none } Option.none).hourlyRate.map (fun r => r * 730) ∧
    (calculateCostEstimate
      { mode := "aggregated", replicas := 2, gpusPerReplica := 4,
        cloudProvider := some .none } Option.none).hasActualCosts = false ∧
    (calculateCostEstimate
      { mode := "aggregated", replicas := 2, gpusPerReplica := 4,
        cloudProvider := some .none } Option.none).hourlyRate = Option.none ∧
    (calculateCostEstimate
      { mode := "aggregated", replicas := 2, gpusPerReplica := 4,
        cloudProvider := some .none } Option.none).gpuMultiplier =
      (calculateResourceBreakdown
        { mode := "aggregated", replicas := 2, gpusPerReplica := 4,
          cloudProvider := some .none }).totalGpus / 4 := by
  have h := cost_estimate_monthly_and_none_provider
    { mode := "aggregated", replicas := 2, gpusPerReplica := 4,
      cloudProvider := some .none } Option.none
  have h2 := h.2 rfl
  exact ⟨h.1, h2.1, h2.2.1, h2.2.2 (by norm_num)⟩

/-- C1: for every config with non-empty name and namespace, the
synthesized manifest's services map has exactly one `Frontend` key and
exactly one worker key matching the engine (the other two absent), and
`validateManifest` accepts it with zero errors. -/
theorem manifest_synthesis_roundtrip (config : DeploymentConfig)
    (hn : config.name ≠ "") (hns : config.namespace' ≠ "") :
    (serviceKeys (generateDynamoManifest config)).count "Frontend" = 1 ∧
    (serviceKeys (generateDynamoManifest config)).count (workerKeyOf config.engine) = 1 ∧
    (∀ e : Engine, e ≠ config.engine →
      (serviceKeys (generateDynamoManifest config)).count (workerKeyOf e) = 0) ∧
    validateManifest (generateDynamoManifest config) = ⟨true, []⟩ := by
  have hk : serviceKeys (generateDynamoManifest config) =
      ["Frontend", workerKeyOf config.engine] := by
    simp [serviceKeys, generateDynamoManifest, generateWorkerSpec]
  refine ⟨?_, ?_, ?_, ?_⟩
  · rw [hk]; cases config.engine <;> simp [workerKeyOf]
  · rw [hk]; cases config.engine <;> simp [workerKeyOf]
  · intro e hne
    rw [hk]
    cases he : config.engine <;> cases e <;> simp_all [workerKeyOf]
  · cases he : config.engine <;>
      simp [validateManifest, generateDynamoManifest, generateWorkerSpec,
        generateFrontendSpec, workerKeyOf, he, hn, hns, List.lookup]

/-- Witness for C1: a concrete sglang deployment named `demo`/`default`
yields one Frontend key, one SglangWorker key, no other worker keys, and
a clean validation. -/
theorem manifest_synthesis_roundtrip_witness :
    (serviceKeys (generateDynamoManifest
      { name := "demo", namespace' := "default", modelId := "Qwen/Qwen2-0.5B",
        engine := .sglang, mode := "aggregated", routerMode := .none,
        replicas := 1, hfTokenSecret := "hf-secret" })).count "Frontend" = 1 ∧
    (serviceKeys (generateDynamoManifest
      { name := "demo", namespace' := "default", modelId := "Qwen/Qwen2-0.5B",
        engine := .sglang, mode := "aggregated", routerMode := .none,
        replicas := 1, hfTokenSecret := "hf-secret" })).count
      (workerKeyOf Engine.sglang) = 1 ∧
    (∀ e : Engine, e ≠ Engine.sglang →
      (serviceKeys (generateDynamoManifest
        { name := "demo", namespace' := "default", modelId := "Qwen/Qwen2-0.5B",
          engine := .sglang, mode := "aggregated", routerMode := .none,
          replicas := 1, hfTokenSecret := "hf-secret" })).count (workerKeyOf e) = 0) ∧
    validateManifest (generateDynamoManifest
      { name := "demo", namespace' := "default", modelId := "Qwen/Qwen2-0.5B",
        engine := .sglang, mode := "aggregated", routerMode := .none,
        replicas := 1, hfTokenSecret := "hf-secret" }) = ⟨true, []⟩ :=
  manifest_synthesis_roundtrip
    { name := "demo", namespace' := "default", modelId := "Qwen/Qwen2-0.5B",
      engine := .sglang, mode := "aggregated", routerMode := .none,
      replicas := 1, hfTokenSecret := "hf-secret" }
    (by decide) (by decide)

/-- The source's free-form serialization agrees with the amended rule:
boolean `true` bare, boolean `false` omitted, non-boolean `--key value`. -/
theorem engineArgTokens_eq_spec (ls : List (String × EngineArgValue)) :
    engineArgTokens ls = specEngineArgTokens ls := by
  induction ls with
  | nil => rfl
  | cons kv rest ih =>
    obtain ⟨k, v⟩ := kv
    rcases v with b | s
    · cases b <;> simp [engineArgTokens, specEngineArgTokens] <;>
        simpa [specEngineArgTokens] using ih
    · simp only [engineArgTokens, specEngineArgTokens, List.map_cons, List.flatten_cons]
      simpa [specEngineArgTokens] using ih

/-- C4 (amended): every synthesized worker spec carries the single
command-line string assembled in the claim's fixed order, with the
boolean-`false` rule amended: a free-form entry whose value is boolean
`false` emits nothing (rather than `--key false`). -/
theorem worker_args_fixed_order (config : DeploymentConfig) :
    workerArgStrings config = some [specWorkerArgString config] := by
  have hargs : buildWorkerArgs config =
      specArgPrefix config ++ specEngineArgTokens (config.engineArgs.getD []) := by
    unfold buildWorkerArgs specArgPrefix
    rw [engineArgTokens_eq_spec]
    cases config.servedModelName <;> cases config.contextLength <;>
      simp [optToken, apply_ite Option.toList]
  cases he : config.engine <;>
    simp [workerArgStrings, generateDynamoManifest, generateWorkerSpec, workerKeyOf, he,
      specWorkerArgString, ← hargs, List.lookup]

/-- Counterexample to C4 as stated: with a free-form entry
`enable-chunked-prefill: false`, the synthesized argument string differs
from the claim's serialization, which would emit
`--enable-chunked-prefill false`. -/
theorem worker_args_claim_counterexample :
    workerArgStrings c4Config ≠ some [claimedWorkerArgString c4Config] := by decide

/-- C7: uninstall processes the provider's charts in exactly reverse
declared order, returns one outcome entry per chart whatever the
individual CLI results are, and never throws past the Helm-availability
guard. -/
theorem uninstall_reverse_order (env : RouteEnv) (p : Provider)
    (h : env.helmAvailable = true) :
    (uninstallRoute env p).1.isOk = true ∧
    ((uninstallRoute env p).1.toOption.getD []).map (·.chart) =
      (p.helmCharts.map (·.name)).reverse ∧
    ((uninstallRoute env p).1.toOption.getD []).length = p.helmCharts.length ∧
    (uninstallRoute env p).2 =
      (p.helmCharts.map (fun c => HelmOp.chartUninstall c.name c.namespace')).reverse := by
  refine ⟨?_, ?_, ?_, ?_⟩ <;>
    simp [uninstallRoute, h, Except.isOk, Except.toBool, Except.toOption, Function.comp]

/-- Witness for C7: on a three-chart provider `[chart-a, chart-b,
chart-c]` with a CLI that fails every call, uninstall still answers with
three entries and issues the uninstall operations in order
`[chart-c, chart-b, chart-a]`. -/
theorem uninstall_reverse_order_witness :
    ((uninstallRoute { helmAvailable := true, cli := allFailCli }
        threeChartProvider).1.isOk = true ∧
     ((uninstallRoute { helmAvailable := true, cli := allFailCli }
        threeChartProvider).1.toOption.getD []).map (·.chart) =
       (threeChartProvider.helmCharts.map (·.name)).reverse ∧
     ((uninstallRoute { helmAvailable := true, cli := allFailCli }
        threeChartProvider).1.toOption.getD []).length =
       threeChartProvider.helmCharts.length ∧
     (uninstallRoute { helmAvailable := true, cli := allFailCli }
        threeChartProvider).2 =
       (threeChartProvider.helmCharts.map
         (fun c => HelmOp.chartUninstall c.name c.namespace')).reverse) ∧
    (uninstallRoute { helmAvailable := true, cli := allFailCli }
       threeChartProvider).2 =
      [.chartUninstall "chart-c" "ns", .chartUninstall "chart-b" "ns",
       .chartUninstall "chart-a" "ns"] :=
  ⟨uninstall_reverse_order { helmAvailable := true, cli := allFailCli }
     threeChartProvider rfl, by decide⟩

/-- C8: when the cluster already reports the provider installed, install
returns success with `alreadyInstalled = true` and issues zero CLI
provisioning operations. -/
theorem install_already_installed_short_circuit (env : RouteEnv) (p : Provider)
    (ha : env.helmAvailable = true) (hi : env.installedBefore = true) :
    installRoute env p =
      (.ok { success := true, message := p.name ++ " is already installed",
             alreadyInstalled := true }, ([] : List HelmOp)) := by
  simp [installRoute, ha, hi]

/-- Witness for C8: a two-chart provider reported installed short-circuits
with `alreadyInstalled = true` and an empty operation log, even though
its CLI would fail every call. -/
theorem install_already_installed_short_circuit_witness :
    installRoute { helmAvailable := true, installedBefore := true, cli := allFailCli }
      demoProvider =
      (.ok { success := true, message := demoProvider.name ++ " is already installed",
             alreadyInstalled := true }, ([] : List HelmOp)) :=
  install_already_installed_short_circuit
    { helmAvailable := true, installedBefore := true, cli := allFailCli }
    demoProvider rfl rfl

/-- C9: once config validation passes, the deployment-creation route
always creates the deployment and answers 201, for every fit checker and
warning formatter; a failing GPU-capacity query is caught, leaving the
response warning-free rather than failing the request. -/
theorem deployment_creation_capacity_degrade (config : DeploymentConfig)
    (capacity : Except String ClusterGpuCapacity) (minGpus : ℕ)
    (fit : DeploymentConfig → ClusterGpuCapacity → ℕ → GpuFitResult)
    (fmt : GpuFitResult → List String) :
    (createDeploymentRoute (.ok config) capacity minGpus fit fmt).2 = true ∧
    (createDeploymentRoute (.ok config) capacity minGpus fit fmt).1.isOk = true ∧
    (∀ e, capacity = .error e →
      (createDeploymentRoute (.ok config) capacity minGpus fit fmt).1 =
        .ok { message := "Deployment created successfully", name := config.name,
              namespace' := config.namespace', warnings := [] }) := by
  refine ⟨?_, ?_, ?_⟩ <;> cases capacity <;>
    simp [createDeploymentRoute, Except.isOk, Except.toBool]

/-- Witness for C9: with the cluster unreachable (capacity query failed)
and a fit checker that would veto everything, the route still creates the
deployment and returns a warning-free 201 body. -/
theorem deployment_creation_capacity_degrade_witness :
    (createDeploymentRoute
      (.ok { name := "demo", namespace' := "default", modelId := "Qwen/Qwen2-0.5B",
             engine := .vllm, mode := "aggregated", routerMode := .none,
             replicas := 1, hfTokenSecret := "hf-secret" })
      (.error "cluster unreachable") 1
      (fun _ _ _ => { fits := false, warnings := ["no capacity"] })
      (·.warnings)).2 = true ∧
    (createDeploymentRoute
      (.ok { name := "demo", namespace' := "default", modelId := "Qwen/Qwen2-0.5B",
             engine := .vllm, mode := "aggregated", routerMode := .none,
             replicas := 1, hfTokenSecret := "hf-secret" })
      (.error "cluster unreachable") 1
      (fun _ _ _ => { fits := false, warnings := ["no capacity"] })
      (·.warnings)).1 =
      .ok { message := "Deployment created successfully", name := "demo",
            namespace' := "default", warnings := [] } := by
  have h := deployment_creation_capacity_degrade
    { name := "demo", namespace' := "default", modelId := "Qwen/Qwen2-0.5B",
      engine := .vllm, mode := "aggregated", routerMode := .none,
      replicas := 1, hfTokenSecret := "hf-secret" }
    (.error "cluster unreachable") 1
    (fun _ _ _ => { fits := false, warnings := ["no capacity"] })
    (·.warnings)
  exact ⟨h.1, h.2.2 "cluster unreachable" rfl⟩

/-- The step runner records every step up to and including the first
failing one, in order, and issues no operation past it. -/
theorem runSteps_stop (env : HelmEnv) (pre : List HelmOp) (op : HelmOp)
    (post : List HelmOp) (hpre : ∀ o ∈ pre, (env o).success = true)
    (hop : (env op).success = false) :
    runSteps env (pre ++ op :: post) =
      ((pre ++ [op]).map (stepEntry env), pre ++ [op]) := by
  induction pre with
  | nil => simp [runSteps, hop, stepEntry]
  | cons o rest ih =>
    have ho : (env o).success = true := hpre o (by simp)
    have ih' := ih (fun x hx => hpre x (by simp [hx]))
    simp [runSteps, ho, ih', stepEntry]

/-- The upgrade chart loop throws a 500 at the first failing chart,
after issuing exactly the upgrades up to and including it. -/
theorem upgradeCharts_stop (env : HelmEnv) (pre : List HelmChart) (c : HelmChart)
    (post : List HelmChart)
    (hpre : ∀ x ∈ pre, (env (.chartUpgrade x)).success = true)
    (hc : (env (.chartUpgrade c)).success = false) :
    upgradeCharts env (pre ++ c :: post) =
      (.error ⟨500, "Upgrade failed for chart \"" ++ c.name ++ "\": " ++
         (env (.chartUpgrade c)).stderr⟩,
       (pre ++ [c]).map .chartUpgrade) := by
  induction pre with
  | nil => simp [upgradeCharts, hc]
  | cons x rest ih =>
    have hx : (env (.chartUpgrade x)).success = true := hpre x (by simp)
    have ih' := ih (fun y hy => hpre y (by simp [hy]))
    simp [upgradeCharts, hx, ih', Except.map]

/-- C6 (amended): on the first failing provisioning step during provider
install, the Helm service stops issuing steps and resolves — as data, not
an exception — with the ordered per-step results collected so far, the
failing step's captured stderr included; during provider upgrade the
route likewise stops issuing chart steps at the first failure, but it
raises an HTTP 500 carrying only the failing chart's stderr, so the
per-chart entries collected so far are not returned. -/
theorem install_failure_as_data_upgrade_raises :
    (∀ (env : HelmEnv) (repos : List HelmRepo) (charts : List HelmChart)
       (pre : List HelmOp) (op : HelmOp) (post : List HelmOp),
       installSteps repos charts = pre ++ op :: post →
       (∀ o ∈ pre, (env o).success = true) →
       (env op).success = false →
       installProvider env repos charts =
         ({ success := false, results := (pre ++ [op]).map (stepEntry env) },
          pre ++ [op])) ∧
    (∀ (env : RouteEnv) (p : Provider) (pre : List HelmChart) (c : HelmChart)
       (post : List HelmChart),
       env.helmAvailable = true →
       p.helmCharts = pre ++ c :: post →
       (∀ x ∈ pre, (env.cli (.chartUpgrade x)).success = true) →
       (env.cli (.chartUpgrade c)).success = false →
       upgradeRoute env p =
         (.error ⟨500, "Upgrade failed for chart \"" ++ c.name ++ "\": " ++
            (env.cli (.chartUpgrade c)).stderr⟩,
          p.helmRepos.map .repoAdd ++ [.repoUpdate] ++ (pre ++ [c]).map .chartUpgrade)) := by
  constructor
  · intro env repos charts pre op post hdec hpre hop
    rw [installProvider, hdec, runSteps_stop env pre op post hpre hop]
    simp [stepEntry, hop]
  · intro env p pre c post ha hdec hpre hc
    simp [upgradeRoute, ha, hdec, upgradeCharts_stop env.cli pre c post hpre hc]

/-- Counterexample to C6 as stated: on the two-chart demo provider with
a CLI whose `dynamo-crds` upgrade fails, the upgrade flow's failure
outcome is an HTTP 500 exception — raised, not returned as data. -/
theorem upgrade_failure_raises_counterexample :
    (upgradeRoute { helmAvailable := true, cli := failingUpgradeCli } demoProvider).1 =
      .error ⟨500, "Upgrade failed for chart \"dynamo-crds\": UPGRADE FAILED: boom"⟩ := by
  rfl

/-- Witness for C6: concretely, installing the demo provider with a CLI
whose `dynamo-operator` install fails yields the data outcome with the
three successful step entries plus the failing one, no further
operations; upgrading it with a CLI whose first chart fails raises the
500 after issuing only that chart's upgrade. -/
theorem install_failure_as_data_upgrade_raises_witness :
    installProvider failingInstallCli demoProvider.helmRepos demoProvider.helmCharts =
      ({ success := false,
         results := ([HelmOp.repoAdd nvidiaRepo, HelmOp.repoUpdate,
           HelmOp.chartInstall crdsChart] ++ [HelmOp.chartInstall operatorChart]).map
           (stepEntry failingInstallCli) },
       [HelmOp.repoAdd nvidiaRepo, HelmOp.repoUpdate, HelmOp.chartInstall crdsChart] ++
         [HelmOp.chartInstall operatorChart]) ∧
    upgradeRoute { helmAvailable := true, cli := failingUpgradeCli } demoProvider =
      (.error ⟨500, "Upgrade failed for chart \"" ++ crdsChart.name ++ "\": " ++
         (failingUpgradeCli (.chartUpgrade crdsChart)).stderr⟩,
       demoProvider.helmRepos.map .repoAdd ++ [.repoUpdate] ++
         ([] ++ [crdsChart]).map .chartUpgrade) :=
  ⟨install_failure_as_data_upgrade_raises.1 failingInstallCli
     demoProvider.helmRepos demoProvider.helmCharts
     [HelmOp.repoAdd nvidiaRepo, HelmOp.repoUpdate, HelmOp.chartInstall crdsChart]
     (HelmOp.chartInstall operatorChart) [] (by decide) (by decide) (by decide),
   install_failure_as_data_upgrade_raises.2
     { helmAvailable := true, cli := failingUpgradeCli } demoProvider
     [] crdsChart [operatorChart] rfl (by decide) (by decide) (by decide)⟩

end KubeFoundry
